import Mathlib

/-!
Verification of the Privacy Protection Module stream runner (src/src/ppm.cpp).

This file gives a shallow embedding of the PPM class's observable state and
of the functions the claims are about:

- PPM.State: the counters, flags and resolved configuration fields of the
  PPM object (constructor, ppm.cpp lines 85-113, plus the two static flags
  at lines 77-78).  The counter fields are declared in ppm.hpp, which is
  not part of the provided sources; following the spec they are modelled
  as unbounded monotonic counters (Nat).  The field produce_errors is a
  ghost counter, not present in the code: it counts the retained messages
  whose produce call failed (the error branch at ppm.cpp line 824-826),
  the quantity the spec's counter-conservation law refers to.
- PPM.msg_consume: the switch on the consumed message's error code
  (ppm.cpp lines 470-552).
- PPM.loopStep: one iteration of the consume-produce loop in
  PPM::operator() (ppm.cpp lines 818-837).
- PPM.sigterm: the SIGINT/SIGTERM handler (ppm.cpp lines 80-83).
- PPM.configure: the configuration resolution (ppm.cpp lines 245-468).
- PPM.operatorMain: PPM::operator() (ppm.cpp lines 767-845).

Interactions with the outside world (the Kafka client library, the BSM
handler, the filesystem) are modelled as oracle inputs: each consumed
message carries its librdkafka error code, its length, the outcome of
handler.process on its payload, the size of the handler's output buffer,
and the status of the produce call made for it.
-/

namespace PPM

/-- Error codes of a consumed RdKafka message, as discriminated by the
switch in PPM::msg_consume (ppm.cpp lines 478-549).  otherError is the
default case of the switch. -/
inductive ConsumeErr where
  | noError
  | timedOut
  | partitionEof
  | unknownTopic
  | unknownPartition
  | otherError
deriving DecidableEq, Repr

/-- One consumed message together with the outcomes of the external calls
made while handling it: message->len(), handler.process(payload),
handler.get_bsm_buffer_size(), and whether producer->produce returned
ERR_NO_ERROR. -/
structure Event where
  err : ConsumeErr
  len : Nat
  processOk : Bool
  bufSize : Nat
  produceOk : Bool
deriving DecidableEq, Repr

/-- Observable state of the PPM object: the static flags bootstrap and
bsms_available (ppm.cpp lines 77-78), the counters and configuration
members initialised by the constructor (lines 85-113), and the ghost
counter produce_errors (see the file comment). -/
structure State where
  bootstrap : Bool
  bsms_available : Bool
  exit_eof : Bool
  eof_cnt : Nat
  partition_cnt : Nat
  bsm_recv_count : Nat
  bsm_send_count : Nat
  bsm_filt_count : Nat
  bsm_recv_bytes : Nat
  bsm_send_bytes : Nat
  bsm_filt_bytes : Nat
  produce_errors : Nat
  partition : Int
  offset : Int
  consumed_topic : String
  published_topic : String
  consumer_timeout : Int
  mapfile : String
deriving DecidableEq, Repr

/-- librdkafka constant RdKafka::Topic::PARTITION_UA. -/
def PARTITION_UA : Int := -1

/-- librdkafka constant RdKafka::Topic::OFFSET_BEGINNING. -/
def OFFSET_BEGINNING : Int := -2

/-- librdkafka constant RdKafka::Topic::OFFSET_END. -/
def OFFSET_END : Int := -1

/-- librdkafka constant RdKafka::Topic::OFFSET_STORED. -/
def OFFSET_STORED : Int := -1000

/-- State established by the PPM constructor (ppm.cpp lines 85-113) and
the static initialisers (lines 77-78).  The ghost counter produce_errors
starts at zero. -/
def initState : State where
  bootstrap := true
  bsms_available := true
  exit_eof := true
  eof_cnt := 0
  partition_cnt := 1
  bsm_recv_count := 0
  bsm_send_count := 0
  bsm_filt_count := 0
  bsm_recv_bytes := 0
  bsm_send_bytes := 0
  bsm_filt_bytes := 0
  produce_errors := 0
  partition := PARTITION_UA
  offset := OFFSET_BEGINNING
  consumed_topic := ""
  published_topic := ""
  consumer_timeout := 500
  mapfile := ""

/-- PPM::msg_consume (ppm.cpp lines 470-552): the switch over the consumed
message's error code.  Returns the boolean result of msg_consume (true
exactly when the message is a real message the handler retained) together
with the updated state. -/
def msg_consume (s : State) (e : Event) : Bool × State :=
  match e.err with
  | .timedOut => (false, s)
  | .noError =>
    let s1 := { s with
      bsm_recv_count := s.bsm_recv_count + 1,
      bsm_recv_bytes := s.bsm_recv_bytes + e.len }
    if e.processOk then
      (true, s1)
    else
      (false, { s1 with
        bsm_filt_count := s1.bsm_filt_count + 1,
        bsm_filt_bytes := s1.bsm_filt_bytes + e.len })
  | .partitionEof =>
    if s.exit_eof then
      let s1 := { s with eof_cnt := s.eof_cnt + 1 }
      if s1.eof_cnt = s1.partition_cnt then
        (false, { s1 with bsms_available := false })
      else
        (false, s1)
    else
      (false, s)
  | .unknownTopic => (false, { s with bsms_available := false })
  | .unknownPartition => (false, { s with bsms_available := false })
  | .otherError => (false, { s with bsms_available := false })

/-- One iteration of the consume-produce loop in PPM::operator() (ppm.cpp
lines 818-837): consume a message; when msg_consume returns true, call
produce, and on ERR_NO_ERROR increment bsm_send_count and add the consumed
message's length to bsm_send_bytes (line 830 adds msg->len(), not the
handler's buffer size); on any other status only log (modelled by the
ghost counter produce_errors). -/
def loopStep (s : State) (e : Event) : State :=
  let r := msg_consume s e
  if r.fst then
    if e.produceOk then
      { r.snd with
        bsm_send_count := r.snd.bsm_send_count + 1,
        bsm_send_bytes := r.snd.bsm_send_bytes + e.len }
    else
      { r.snd with produce_errors := r.snd.produce_errors + 1 }
  else
    r.snd

/-- PPM::sigterm (ppm.cpp lines 80-83): the SIGINT/SIGTERM handler sets
both static flags to false. -/
def sigterm (s : State) : State :=
  { s with bsms_available := false, bootstrap := false }

/-- One step of the inner loop's trace: either a consume iteration, or
the asynchronous arrival of SIGINT/SIGTERM between iterations. -/
inductive InEvent where
  | msg (e : Event)
  | signalArrives
deriving DecidableEq, Repr

/-- The inner consume-produce loop (while bsms_available, ppm.cpp line
818) over a trace of events.  A signal event applies the handler
regardless of the loop flag (the flags are globals written from signal
context); a consume iteration happens only while bsms_available holds,
otherwise the loop has exited and the remaining trace is not consumed. -/
def runInner (s : State) : List InEvent → State
  | [] => s
  | .signalArrives :: rest => runInner (sigterm s) rest
  | .msg e :: rest =>
    if s.bsms_available then runInner (loopStep s e) rest else s

/-- One iteration of the outer bootstrap loop (ppm.cpp lines 787-837):
whether launch_consumer and launch_producer succeeded in this generation,
and the inner-loop trace consumed by the generation's BSMHandler. -/
structure Generation where
  consumerOk : Bool
  producerOk : Bool
  events : List InEvent
deriving DecidableEq, Repr

/-- One bootstrap-loop iteration body (ppm.cpp lines 787-837): reset
bsms_available to true (line 789); on a launch failure sleep and continue
(lines 791-801); otherwise run the inner consume-produce loop. -/
def runGen (s : State) (g : Generation) : State :=
  let s1 := { s with bsms_available := true }
  if g.consumerOk then
    if g.producerOk then runInner s1 g.events else s1
  else s1

/-- The outer bootstrap loop (while bootstrap, ppm.cpp line 787) over a
finite trace of generations. -/
def runBootstrap (s : State) : List Generation → State
  | [] => s
  | g :: rest => if s.bootstrap then runBootstrap (runGen s g) rest else s

/-- spdlog severity levels (spdlog::level), the targets of
logger->set_info_level in PPM::configure (ppm.cpp lines 247-265). -/
inductive SpdLevel where
  | trace
  | debug
  | info
  | warn
  | err
  | critical
  | off
deriving DecidableEq, Repr

/-- The log-level chain at the top of PPM::configure (ppm.cpp lines
247-265): when option v is set, map its string to the information-log
level; trace, debug and info all select spdlog::level::trace; an
unrecognised value logs a warning and leaves the current (default) level
in place; when the option is absent nothing changes. -/
def set_info_level (v : Option String) (current : SpdLevel) : SpdLevel :=
  match v with
  | none => current
  | some o =>
    if o = "trace" then SpdLevel.trace
    else if o = "debug" then SpdLevel.trace
    else if o = "info" then SpdLevel.trace
    else if o = "warning" then SpdLevel.warn
    else if o = "error" then SpdLevel.err
    else if o = "critical" then SpdLevel.critical
    else if o = "off" then SpdLevel.off
    else current

/-- Longest run of leading decimal digits, as consumed by std::stoi and
strtoll; none when no digit is found. -/
def digitsPrefix : List Char → Nat → Bool → Option Nat
  | [], acc, seen => if seen then some acc else none
  | c :: cs, acc, seen =>
    if c.isDigit then digitsPrefix cs (acc * 10 + (c.toNat - 48)) true
    else if seen then some acc else none

/-- Leading-whitespace skip of std::stoi / strtoll. -/
def skipSpaces : List Char → List Char
  | [] => []
  | c :: cs => if c = ' ' ∨ c = '\t' ∨ c = '\n' ∨ c = '\r' then skipSpaces cs else c :: cs

/-- std::stoi: skip whitespace, optional sign, longest digit run; none
models std::invalid_argument being thrown (no digits).  Out-of-range is
not modelled (values are unbounded here). -/
def stoi (v : String) : Option Int :=
  match skipSpaces v.data with
  | '-' :: cs => (digitsPrefix cs 0 false).map (fun n => -(n : Int))
  | '+' :: cs => (digitsPrefix cs 0 false).map (fun n => (n : Int))
  | cs => (digitsPrefix cs 0 false).map (fun n => (n : Int))

/-- strtoll with base 10 as used at ppm.cpp line 410: same prefix parse
as stoi but total, returning 0 when no conversion is possible. -/
def strtoll (v : String) : Int := (stoi v).getD 0

/-- Inputs to PPM::configure: the relevant CLI options (optIsSet /
optString / optInt / getOption), the outcome of opening the configuration
file, the ppm key-value pairs parsed from it (the pconf map built at
ppm.cpp lines 292-324; configuration-file tokenization itself is external
per the spec), whether BuildGeofence succeeds, and the statuses of the
kafka conf->set calls that can fail configure. -/
structure ConfigInputs where
  optC : Option String
  fileOk : Bool
  pconf : List (String × String)
  optV : Option String
  optM : Option String
  optB : Option String
  optP : Option Int
  optG : Option String
  groupSetOk : Bool
  optO : Option String
  optX : Bool
  optDebug : Option String
  debugSetOk : Bool
  optU : Option String
  optF : Option String
  geofenceOk : Bool
deriving DecidableEq, Repr

/-- Outcome of PPM::configure: returned true, returned false, or let an
exception escape (std::stoi at line 362 or BuildGeofence at line 347). -/
inductive ConfigResult where
  | ok
  | fail
  | thrown
deriving DecidableEq, Repr

/-- Mapfile resolution, ppm.cpp lines 329-343: the CLI option m when set,
otherwise the pconf key; none means configure fails. -/
def resolve_mapfile (c : ConfigInputs) : Option String :=
  match c.optM with
  | some m => some m
  | none => List.lookup "privacy.filter.geofence.mapfile" c.pconf

/-- Partition resolution, ppm.cpp lines 355-364: the CLI option p when
set, otherwise stoi of the pconf key when present (outer none models the
stoi exception escaping configure), otherwise inner none meaning the
member keeps its PARTITION_UA default. -/
def resolve_partition (c : ConfigInputs) : Option (Option Int) :=
  match c.optP with
  | some p => some (some p)
  | none =>
    match List.lookup "privacy.kafka.partition" c.pconf with
    | some v => (stoi v).map some
    | none => some none

/-- Offset resolution, ppm.cpp lines 399-414: when option o is set, the
named positions map to the librdkafka offset constants and anything else
goes through strtoll; otherwise the current offset is kept. -/
def resolve_offset (c : ConfigInputs) (cur : Int) : Int :=
  match c.optO with
  | none => cur
  | some o =>
    if o = "end" then OFFSET_END
    else if o = "beginning" then OFFSET_BEGINNING
    else if o = "stored" then OFFSET_STORED
    else strtoll o

/-- Consumed-topic resolution, ppm.cpp lines 425-436: CLI option u when
set, otherwise the pconf key; none means configure fails. -/
def resolve_consumed (c : ConfigInputs) : Option String :=
  match c.optU with
  | some u => some u
  | none => List.lookup "privacy.topic.consumer" c.pconf

/-- Published-topic resolution, ppm.cpp lines 440-453: CLI option f when
set, otherwise the pconf key; none means configure fails. -/
def resolve_published (c : ConfigInputs) : Option String :=
  match c.optF with
  | some f => some f
  | none => List.lookup "privacy.topic.producer" c.pconf

/-- Consumer-timeout resolution, ppm.cpp lines 457-464: stoi of the pconf
key when present, keeping the current value when the key is absent or
stoi throws (the exception is caught there). -/
def resolve_timeout (c : ConfigInputs) (cur : Int) : Int :=
  match List.lookup "privacy.consumer.timeout.ms" c.pconf with
  | some v =>
    match stoi v with
    | some t => t
    | none => cur
  | none => cur

/-- PPM::configure (ppm.cpp lines 245-468).  Early returns of the C++
function become the nested branches here, in source order: missing option
c (line 278), unopenable file (line 287), mapfile resolution (lines
329-343), BuildGeofence which may throw (line 347), partition resolution
whose stoi may throw (lines 355-364), group.id conf->set failure (line
393), offset (lines 399-414), exit_eof from option x (line 417), debug
conf->set failure (line 419), consumed topic (lines 425-436), published
topic (lines 440-453), consumer timeout (lines 457-464).  Kafka-only
settings (broker list, the Confluent environment block) touch only the
kafka configuration objects and are not part of the modelled state.  The
logger level set at lines 247-265 is given by set_info_level and is not a
State field (the logger object is external). -/
def configure (c : ConfigInputs) (s0 : State) : ConfigResult × State :=
  if c.optC.isNone then (ConfigResult.fail, s0)
  else if c.fileOk = false then (ConfigResult.fail, s0)
  else
    match resolve_mapfile c with
    | none => (ConfigResult.fail, s0)
    | some mf =>
      let s1 := { s0 with mapfile := mf }
      if c.geofenceOk = false then (ConfigResult.thrown, s1)
      else
        match resolve_partition c with
        | none => (ConfigResult.thrown, s1)
        | some p? =>
          let s2 := { s1 with partition := p?.getD s1.partition }
          if c.optG.isSome && !c.groupSetOk then (ConfigResult.fail, s2)
          else
            let s3 := { s2 with offset := resolve_offset c s2.offset }
            let s4 := { s3 with exit_eof := c.optX }
            if c.optDebug.isSome && !c.debugSetOk then (ConfigResult.fail, s4)
            else
              match resolve_consumed c with
              | none => (ConfigResult.fail, s4)
              | some u =>
                let s5 := { s4 with consumed_topic := u }
                match resolve_published c with
                | none => (ConfigResult.fail, s5)
                | some f =>
                  let s6 := { s5 with published_topic := f }
                  (ConfigResult.ok,
                   { s6 with consumer_timeout := resolve_timeout c s6.consumer_timeout })

/-- Result of PPM::operator(): the process exit status, the final PPM
state, and the summary emitted to the info log at ppm.cpp lines 841-843
(the consumed, published and suppressed count-and-byte pairs); the
summary is none on the configure-failure paths, which return before the
summary lines. -/
structure RunResult where
  exitCode : Nat
  final : State
  summary : Option ((Nat × Nat) × (Nat × Nat) × (Nat × Nat))
deriving DecidableEq, Repr

/-- The three counter lines PPM::operator() logs before returning
(ppm.cpp lines 841-843): consumed, published, suppressed, each as a
count-and-bytes pair. -/
def summaryOf (s : State) : (Nat × Nat) × (Nat × Nat) × (Nat × Nat) :=
  ((s.bsm_recv_count, s.bsm_recv_bytes),
   (s.bsm_send_count, s.bsm_send_bytes),
   (s.bsm_filt_count, s.bsm_filt_bytes))

/-- PPM::operator() (ppm.cpp lines 767-845): configure, returning
EXIT_FAILURE when it returns false or throws (lines 775-785); then the
bootstrap loop; then the summary lines and EXIT_SUCCESS (lines 840-844). -/
def operatorMain (c : ConfigInputs) (gens : List Generation) : RunResult :=
  match configure c initState with
  | (ConfigResult.ok, s1) =>
    let sf := runBootstrap s1 gens
    { exitCode := 0, final := sf, summary := some (summaryOf sf) }
  | (ConfigResult.fail, s1) => { exitCode := 1, final := s1, summary := none }
  | (ConfigResult.thrown, s1) => { exitCode := 1, final := s1, summary := none }

/-- C9: for every consumed message whose error code is timed-out,
msg_consume returns false and changes no state: no counter is incremented
and neither bsms_available nor bootstrap is modified. -/
theorem claim_C9 (s : State) (e : Event) (h : e.err = ConsumeErr.timedOut) :
    msg_consume s e = (false, s) := by
  simp [msg_consume, h]

theorem claim_C9_witness :
    msg_consume initState ⟨ConsumeErr.timedOut, 5, true, 5, true⟩ = (false, initState) :=
  claim_C9 initState ⟨ConsumeErr.timedOut, 5, true, 5, true⟩ rfl

/-- C3: on a partition-EOF message, msg_consume returns false; the eof
counter is incremented if and only if exit_eof is set; when it is set,
bsms_available becomes false exactly when the incremented counter equals
partition_cnt; when exit_eof is not set the state is unchanged. -/
theorem claim_C3 (s : State) (e : Event) (h : e.err = ConsumeErr.partitionEof) :
    (msg_consume s e).fst = false
    ∧ ((msg_consume s e).snd.eof_cnt = s.eof_cnt + 1 ↔ s.exit_eof = true)
    ∧ (s.exit_eof = true →
        (msg_consume s e).snd =
          (if s.eof_cnt + 1 = s.partition_cnt then
            { s with eof_cnt := s.eof_cnt + 1, bsms_available := false }
           else { s with eof_cnt := s.eof_cnt + 1 }))
    ∧ (s.exit_eof = false → (msg_consume s e).snd = s) := by
  by_cases hx : s.exit_eof = true
  · by_cases hc : s.eof_cnt + 1 = s.partition_cnt
    · simp [msg_consume, h, hx, hc]
    · simp [msg_consume, h, hx, hc]
  · have hx2 : s.exit_eof = false := by
      cases hb : s.exit_eof
      · rfl
      · exact absurd hb hx
    simp [msg_consume, h, hx2]

theorem claim_C3_witness :
    (msg_consume initState ⟨ConsumeErr.partitionEof, 7, true, 7, true⟩).fst = false :=
  (claim_C3 initState ⟨ConsumeErr.partitionEof, 7, true, 7, true⟩ rfl).1

/-- C4: for a retained message whose produce call failed, the loop
iteration leaves bsm_send_count and bsm_send_bytes unchanged, keeps the
receive counters incremented, counts one produce error, and leaves the
loop flags unchanged so the loop continues. -/
theorem claim_C4 (s : State) (e : Event) (h1 : e.err = ConsumeErr.noError)
    (h2 : e.processOk = true) (h3 : e.produceOk = false) :
    loopStep s e =
      { s with
        bsm_recv_count := s.bsm_recv_count + 1,
        bsm_recv_bytes := s.bsm_recv_bytes + e.len,
        produce_errors := s.produce_errors + 1 }
    ∧ (loopStep s e).bsm_send_count = s.bsm_send_count
    ∧ (loopStep s e).bsm_send_bytes = s.bsm_send_bytes
    ∧ (loopStep s e).bsm_recv_count = s.bsm_recv_count + 1
    ∧ (loopStep s e).bsms_available = s.bsms_available
    ∧ (loopStep s e).bootstrap = s.bootstrap := by
  simp [loopStep, msg_consume, h1, h2, h3]

theorem claim_C4_witness :
    (loopStep initState ⟨ConsumeErr.noError, 11, true, 11, false⟩).bsm_send_count
      = initState.bsm_send_count :=
  (claim_C4 initState ⟨ConsumeErr.noError, 11, true, 11, false⟩ rfl rfl rfl).2.1

/-- C10: on a successful produce of a retained message, bsm_send_bytes
grows by the consumed message's length, independently of the handler's
buffer size actually handed to the producer. -/
theorem claim_C10 (s : State) (e : Event) (h1 : e.err = ConsumeErr.noError)
    (h2 : e.processOk = true) (h3 : e.produceOk = true) :
    (loopStep s e).bsm_send_bytes = s.bsm_send_bytes + e.len
    ∧ (∀ b : Nat,
        (loopStep s { e with bufSize := b }).bsm_send_bytes = s.bsm_send_bytes + e.len) := by
  constructor
  · simp [loopStep, msg_consume, h1, h2, h3]
  · intro b
    simp [loopStep, msg_consume, h1, h2, h3]

theorem claim_C10_witness :
    (loopStep initState ⟨ConsumeErr.noError, 10, true, 99, true⟩).bsm_send_bytes
      = initState.bsm_send_bytes + 10 :=
  (claim_C10 initState ⟨ConsumeErr.noError, 10, true, 99, true⟩ rfl rfl rfl).1

/-- C8: the log-level options trace, debug and info all set the same
information-log level (spdlog trace), while warning, error, critical and
off each map to their own distinct level, and any other value leaves the
current default in place. -/
theorem claim_C8 (d : SpdLevel) (v : String)
    (hv : v ≠ "trace" ∧ v ≠ "debug" ∧ v ≠ "info" ∧ v ≠ "warning" ∧ v ≠ "error"
          ∧ v ≠ "critical" ∧ v ≠ "off") :
    set_info_level (some "trace") d = SpdLevel.trace
    ∧ set_info_level (some "debug") d = SpdLevel.trace
    ∧ set_info_level (some "info") d = SpdLevel.trace
    ∧ set_info_level (some "warning") d = SpdLevel.warn
    ∧ set_info_level (some "error") d = SpdLevel.err
    ∧ set_info_level (some "critical") d = SpdLevel.critical
    ∧ set_info_level (some "off") d = SpdLevel.off
    ∧ SpdLevel.warn ≠ SpdLevel.err ∧ SpdLevel.warn ≠ SpdLevel.critical
    ∧ SpdLevel.warn ≠ SpdLevel.off ∧ SpdLevel.err ≠ SpdLevel.critical
    ∧ SpdLevel.err ≠ SpdLevel.off ∧ SpdLevel.critical ≠ SpdLevel.off
    ∧ SpdLevel.warn ≠ SpdLevel.trace ∧ SpdLevel.err ≠ SpdLevel.trace
    ∧ SpdLevel.critical ≠ SpdLevel.trace ∧ SpdLevel.off ≠ SpdLevel.trace
    ∧ set_info_level (some v) d = d := by
  obtain ⟨v1, v2, v3, v4, v5, v6, v7⟩ := hv
  simp [set_info_level, v1, v2, v3, v4, v5, v6, v7]

theorem claim_C8_witness :
    set_info_level (some "debug") SpdLevel.info = SpdLevel.trace :=
  (claim_C8 SpdLevel.info "verbose" (by decide)).2.1

/-- Counter conservation relation of the spec: every message counted as
received has been counted as sent, as suppressed, or as a produce error. -/
def countersOk (s : State) : Prop :=
  s.bsm_recv_count = s.bsm_send_count + s.bsm_filt_count + s.produce_errors

/-- Byte accounting relation: the suppressed and sent bytes together never
exceed the received bytes. -/
def bytesOk (s : State) : Prop :=
  s.bsm_filt_bytes + s.bsm_send_bytes ≤ s.bsm_recv_bytes

theorem loopStep_pres (s : State) (e : Event)
    (h1 : countersOk s) (h2 : bytesOk s) :
    countersOk (loopStep s e) ∧ bytesOk (loopStep s e) := by
  rcases e with ⟨err, len, pOk, bsz, prOk⟩
  unfold countersOk at h1
  unfold bytesOk at h2
  unfold countersOk bytesOk
  cases err <;> cases pOk <;> cases prOk <;>
    simp only [loopStep, msg_consume] <;>
    split_ifs <;>
    first
      | omega
      | (simp_all; omega)
      | simp_all

theorem runInner_pres (evs : List InEvent) (s : State)
    (h1 : countersOk s) (h2 : bytesOk s) :
    countersOk (runInner s evs) ∧ bytesOk (runInner s evs) := by
  induction evs generalizing s with
  | nil => exact ⟨h1, h2⟩
  | cons ev rest ih =>
    cases ev with
    | signalArrives => exact ih (sigterm s) h1 h2
    | msg e =>
      by_cases hb : s.bsms_available = true
      · obtain ⟨c1, c2⟩ := loopStep_pres s e h1 h2
        simpa [runInner, hb] using ih (loopStep s e) c1 c2
      · simp only [runInner, hb, if_false]
        exact ⟨h1, h2⟩

theorem runGen_pres (s : State) (g : Generation)
    (h1 : countersOk s) (h2 : bytesOk s) :
    countersOk (runGen s g) ∧ bytesOk (runGen s g) := by
  unfold runGen
  split_ifs
  · exact runInner_pres g.events _ h1 h2
  · exact ⟨h1, h2⟩
  · exact ⟨h1, h2⟩

theorem runBootstrap_pres (gens : List Generation) (s : State)
    (h1 : countersOk s) (h2 : bytesOk s) :
    countersOk (runBootstrap s gens) ∧ bytesOk (runBootstrap s gens) := by
  induction gens generalizing s with
  | nil => exact ⟨h1, h2⟩
  | cons g rest ih =>
    by_cases hb : s.bootstrap = true
    · obtain ⟨c1, c2⟩ := runGen_pres s g h1 h2
      simpa [runBootstrap, hb] using ih (runGen s g) c1 c2
    · simp only [runBootstrap, hb, if_false]
      exact ⟨h1, h2⟩

theorem configure_counters (c : ConfigInputs) (s : State) :
    (configure c s).snd.bsm_recv_count = s.bsm_recv_count
    ∧ (configure c s).snd.bsm_send_count = s.bsm_send_count
    ∧ (configure c s).snd.bsm_filt_count = s.bsm_filt_count
    ∧ (configure c s).snd.bsm_recv_bytes = s.bsm_recv_bytes
    ∧ (configure c s).snd.bsm_send_bytes = s.bsm_send_bytes
    ∧ (configure c s).snd.bsm_filt_bytes = s.bsm_filt_bytes
    ∧ (configure c s).snd.produce_errors = s.produce_errors := by
  unfold configure
  repeat' split
  all_goals simp

theorem initState_countersOk : countersOk initState := by
  unfold countersOk initState
  rfl

theorem initState_bytesOk : bytesOk initState := by
  unfold bytesOk initState
  simp

theorem operatorMain_inv (c : ConfigInputs) (gens : List Generation) :
    countersOk (operatorMain c gens).final ∧ bytesOk (operatorMain c gens).final := by
  have hcc := configure_counters c initState
  have h1 : countersOk (configure c initState).snd := by
    unfold countersOk
    rw [hcc.1, hcc.2.1, hcc.2.2.1, hcc.2.2.2.2.2.2]
    exact initState_countersOk
  have h2 : bytesOk (configure c initState).snd := by
    unfold bytesOk
    rw [hcc.2.2.2.1, hcc.2.2.2.2.1, hcc.2.2.2.2.2.1]
    exact initState_bytesOk
  unfold operatorMain
  rcases hc : configure c initState with ⟨res, s1⟩
  rw [hc] at h1 h2
  cases res
  · exact runBootstrap_pres gens s1 h1 h2
  · exact ⟨h1, h2⟩
  · exact ⟨h1, h2⟩

/-- C1: counter conservation over every run: the number of messages
counted as received equals the number counted as sent plus the number
suppressed plus the number of produce errors, where the receive counter
is bumped once per message consumed without error, the filter counter
once per suppressed message, the send counter once per successful
produce, and produce_errors counts retained messages whose produce call
failed. -/
theorem claim_C1 (c : ConfigInputs) (gens : List Generation) :
    (operatorMain c gens).final.bsm_recv_count
      = (operatorMain c gens).final.bsm_send_count
        + (operatorMain c gens).final.bsm_filt_count
        + (operatorMain c gens).final.produce_errors :=
  (operatorMain_inv c gens).1

/-- C2: byte conservation over every run: the suppressed bytes never
exceed the received bytes, and the sent bytes are at most the received
bytes plus any per-message redaction allowance times the send count
(the code adds the consumed length itself on each successful produce, so
the bound holds for every allowance d). -/
theorem claim_C2 (c : ConfigInputs) (gens : List Generation) (d : Nat) :
    (operatorMain c gens).final.bsm_filt_bytes
      ≤ (operatorMain c gens).final.bsm_recv_bytes
    ∧ (operatorMain c gens).final.bsm_send_bytes
        ≤ (operatorMain c gens).final.bsm_recv_bytes
          + d * (operatorMain c gens).final.bsm_send_count := by
  have h := (operatorMain_inv c gens).2
  unfold bytesOk at h
  omega

theorem sigterm_self (s : State) (h1 : s.bsms_available = false)
    (h2 : s.bootstrap = false) : sigterm s = s := by
  cases s
  simp_all [sigterm]

theorem runInner_stopped (evs : List InEvent) (s : State)
    (h1 : s.bsms_available = false) (h2 : s.bootstrap = false) :
    runInner s evs = s := by
  induction evs generalizing s with
  | nil => rfl
  | cons ev rest ih =>
    cases ev with
    | msg e => simp [runInner, h1]
    | signalArrives =>
      simp only [runInner]
      rw [sigterm_self s h1 h2]
      exact ih s h1 h2

theorem runBootstrap_stopped (gens : List Generation) (s : State)
    (h : s.bootstrap = false) : runBootstrap s gens = s := by
  cases gens with
  | nil => rfl
  | cons g rest => simp [runBootstrap, h]

/-- C7: graceful shutdown.  The SIGINT/SIGTERM handler sets both the
bootstrap and bsms_available flags to false; after a signal arrives the
inner loop finishes its current iteration and consumes nothing further,
the outer loop stops once bootstrap is false, and on the normal return
path the runner emits the three summary counter lines (consumed,
published, suppressed) and returns exit status 0. -/
theorem claim_C7 (s : State) (rest : List InEvent) (gens : List Generation)
    (c : ConfigInputs) (hok : (configure c initState).fst = ConfigResult.ok) :
    (sigterm s).bootstrap = false
    ∧ (sigterm s).bsms_available = false
    ∧ runInner s (InEvent.signalArrives :: rest) = sigterm s
    ∧ (s.bootstrap = false → runBootstrap s gens = s)
    ∧ (operatorMain c gens).exitCode = 0
    ∧ (operatorMain c gens).summary = some (summaryOf (operatorMain c gens).final) := by
  refine ⟨rfl, rfl, ?_, ?_, ?_, ?_⟩
  · simp only [runInner]
    exact runInner_stopped rest (sigterm s) rfl rfl
  · intro h
    exact runBootstrap_stopped gens s h
  · unfold operatorMain
    rcases hc : configure c initState with ⟨res, s1⟩
    rw [hc] at hok
    cases res
    · rfl
    · exact absurd hok (by simp)
    · exact absurd hok (by simp)
  · unfold operatorMain
    rcases hc : configure c initState with ⟨res, s1⟩
    rw [hc] at hok
    cases res
    · simp [operatorMain, hc]
    · exact absurd hok (by simp)
    · exact absurd hok (by simp)

theorem claim_C7_witness :
    (operatorMain
      ⟨some "config", true,
       [("privacy.filter.geofence.mapfile", "map.csv"),
        ("privacy.topic.consumer", "inTopic"),
        ("privacy.topic.producer", "outTopic")],
       none, none, none, none, none, true, none, true, none, true,
       none, none, true⟩ []).exitCode = 0 :=
  (claim_C7 initState [] []
    ⟨some "config", true,
     [("privacy.filter.geofence.mapfile", "map.csv"),
      ("privacy.topic.consumer", "inTopic"),
      ("privacy.topic.producer", "outTopic")],
     none, none, none, none, none, true, none, true, none, true,
     none, none, true⟩ (by rfl)).2.2.2.2.1

/-- C5: configuration precedence.  For each setting with both a CLI flag
and a config-file key (mapfile, partition, consumed topic, published
topic), when the CLI flag is set configure uses the CLI value, whatever
the config file says: the conclusion holds for every pconf. -/
theorem claim_C5 (c : ConfigInputs) (m u f : String) (p : Int)
    (hc : c.optC.isSome = true) (hf : c.fileOk = true) (hg : c.geofenceOk = true)
    (hgr : (c.optG.isSome && !c.groupSetOk) = false)
    (hd : (c.optDebug.isSome && !c.debugSetOk) = false)
    (hm : c.optM = some m) (hp : c.optP = some p)
    (hu : c.optU = some u) (hpf : c.optF = some f) :
    (configure c initState).fst = ConfigResult.ok
    ∧ (configure c initState).snd.mapfile = m
    ∧ (configure c initState).snd.partition = p
    ∧ (configure c initState).snd.consumed_topic = u
    ∧ (configure c initState).snd.published_topic = f := by
  have hc2 : c.optC.isNone = false := by
    cases ho : c.optC <;> simp_all
  unfold configure resolve_mapfile resolve_partition resolve_consumed resolve_published
  simp [hc2, hf, hg, hm, hp, hu, hpf, hgr, hd]

theorem claim_C5_witness :
    (configure
      ⟨some "config", true,
       [("privacy.filter.geofence.mapfile", "other.csv"),
        ("privacy.kafka.partition", "9"),
        ("privacy.topic.consumer", "otherIn"),
        ("privacy.topic.producer", "otherOut")],
       none, some "cli.csv", none, some 3, none, true, none, true, none, true,
       some "cliIn", some "cliOut", true⟩ initState).snd.mapfile = "cli.csv" :=
  (claim_C5
    ⟨some "config", true,
     [("privacy.filter.geofence.mapfile", "other.csv"),
      ("privacy.kafka.partition", "9"),
      ("privacy.topic.consumer", "otherIn"),
      ("privacy.topic.producer", "otherOut")],
     none, some "cli.csv", none, some 3, none, true, none, true, none, true,
     some "cliIn", some "cliOut", true⟩ "cli.csv" "cliIn" "cliOut" 3
    rfl rfl rfl rfl rfl rfl rfl rfl rfl).2.1

theorem resolve_partition_ne_none (c : ConfigInputs)
    (hp : c.optP.isSome = true
          ∨ (∀ v, List.lookup "privacy.kafka.partition" c.pconf = some v →
              (stoi v).isSome = true)) :
    resolve_partition c ≠ none := by
  unfold resolve_partition
  rcases ho : c.optP with _ | pv
  · rcases hl : List.lookup "privacy.kafka.partition" c.pconf with _ | v
    · simp
    · rcases hp with hp1 | hp2
      · rw [ho] at hp1
        simp at hp1
      · have hv := hp2 v hl
        rcases hsv : stoi v with _ | t
        · rw [hsv] at hv
          simp at hv
        · simp [hsv]
  · simp

/-- C6: missing required configuration is fatal at startup.  When the
configuration file opens but neither the CLI nor the file supplies a
mapfile, a consumer topic, or a producer topic, configure returns false
and the runner returns exit status 1 with its final state exactly the
state configure left, so the bootstrap loop is never entered. -/
theorem claim_C6 (c : ConfigInputs) (gens : List Generation)
    (hc : c.optC.isSome = true) (hf : c.fileOk = true) (hg : c.geofenceOk = true)
    (hp : c.optP.isSome = true
          ∨ (∀ v, List.lookup "privacy.kafka.partition" c.pconf = some v →
              (stoi v).isSome = true))
    (hmiss : (c.optM = none ∧ List.lookup "privacy.filter.geofence.mapfile" c.pconf = none)
          ∨ (c.optU = none ∧ List.lookup "privacy.topic.consumer" c.pconf = none)
          ∨ (c.optF = none ∧ List.lookup "privacy.topic.producer" c.pconf = none)) :
    (configure c initState).fst = ConfigResult.fail
    ∧ (operatorMain c gens).exitCode = 1
    ∧ (operatorMain c gens).final = (configure c initState).snd := by
  have hc2 : c.optC.isNone = false := by
    cases ho : c.optC <;> simp_all
  have hpart2 : resolve_partition c ≠ none := resolve_partition_ne_none c hp
  have hfail : (configure c initState).fst = ConfigResult.fail := by
    rcases hmiss with ⟨h1, h2⟩ | ⟨h1, h2⟩ | ⟨h1, h2⟩
    · have hmf : resolve_mapfile c = none := by
        simp [resolve_mapfile, h1, h2]
      unfold configure
      simp [hc2, hf, hmf]
    · have hcons : resolve_consumed c = none := by
        simp [resolve_consumed, h1, h2]
      unfold configure
      cases hmf : resolve_mapfile c with
      | none => simp [hc2, hf, hmf]
      | some mf =>
        cases hpr : resolve_partition c with
        | none => exact absurd hpr hpart2
        | some pp =>
          cases hgb : c.optG.isSome && !c.groupSetOk with
          | true => simp [hc2, hf, hg, hmf, hpr, hgb]
          | false =>
            cases hdb : c.optDebug.isSome && !c.debugSetOk with
            | true => simp [hc2, hf, hg, hmf, hpr, hgb, hdb]
            | false => simp [hc2, hf, hg, hmf, hpr, hgb, hdb, hcons]
    · have hpub : resolve_published c = none := by
        simp [resolve_published, h1, h2]
      unfold configure
      cases hmf : resolve_mapfile c with
      | none => simp [hc2, hf, hmf]
      | some mf =>
        cases hpr : resolve_partition c with
        | none => exact absurd hpr hpart2
        | some pp =>
          cases hgb : c.optG.isSome && !c.groupSetOk with
          | true => simp [hc2, hf, hg, hmf, hpr, hgb]
          | false =>
            cases hdb : c.optDebug.isSome && !c.debugSetOk with
            | true => simp [hc2, hf, hg, hmf, hpr, hgb, hdb]
            | false =>
              cases hcons : resolve_consumed c with
              | none => simp [hc2, hf, hg, hmf, hpr, hgb, hdb, hcons]
              | some u => simp [hc2, hf, hg, hmf, hpr, hgb, hdb, hcons, hpub]
  refine ⟨hfail, ?_, ?_⟩ <;>
  · unfold operatorMain
    rcases hcfg : configure c initState with ⟨res, s1⟩
    rw [hcfg] at hfail
    simp only at hfail
    subst hfail
    simp

theorem claim_C6_witness :
    (configure
      ⟨some "config", true,
       [("privacy.filter.geofence.mapfile", "m.csv"),
        ("privacy.topic.consumer", "inTopic")],
       none, none, none, some 0, none, true, none, true, none, true,
       none, none, true⟩ initState).fst = ConfigResult.fail :=
  (claim_C6
    ⟨some "config", true,
     [("privacy.filter.geofence.mapfile", "m.csv"),
      ("privacy.topic.consumer", "inTopic")],
     none, none, none, some 0, none, true, none, true, none, true,
     none, none, true⟩ [] rfl rfl rfl (Or.inl rfl)
    (Or.inr (Or.inr ⟨rfl, by rfl⟩))).1
